import Mathlib

/-!
A verification development for the PwnGPT episode controller.

The Python sources (`brain.py`, `toolkit.py`) are shallowly embedded below:
pure functions become Lean functions on explicit state records, external
collaborators (the Gemini oracle, the Docker executor, the web scraper, the
screenshot tool, the file inspector) become function-valued parameters, and
calls into the Guardian classifier / the Docker executor are additionally
recorded in explicit call-trace lists so that "the executor was not invoked"
is a provable statement.  All definitions are executable.
-/

namespace PwnGPT

/-! ## String utilities (Python `needle in hay`, `str.lower`, `str.join`) -/

/-- Substring containment on character lists: Python's `needle in hay`. -/
def containsSub (hay needle : List Char) : Bool :=
  match hay with
  | [] => needle.isEmpty
  | _ :: t => needle.isPrefixOf hay || containsSub t needle

/-- Python `needle in hay` on strings. -/
def strContains (hay needle : String) : Bool :=
  containsSub hay.data needle.data

/-- ASCII lower-casing of one character (the only case `str.lower` meets
here: every classifier pattern and flag format is ASCII). -/
def charLower (c : Char) : Char :=
  if 'A' ≤ c && c ≤ 'Z' then Char.ofNat (c.toNat + 32) else c

/-- Python `str.lower`. -/
def strLower (s : String) : String := String.mk (s.data.map charLower)

/-- Python `sep.join xs`. -/
def joinSep (sep : String) : List String → String
  | [] => ""
  | [x] => x
  | x :: y :: xs => x ++ sep ++ joinSep sep (y :: xs)

/-- Python `str.split(sep, 1)[1]`: the text after the first occurrence of
`sep`, or `none` when `sep` does not occur. -/
def splitAfterFirst (hay sep : List Char) : Option (List Char) :=
  match hay with
  | [] => if sep.isEmpty then some [] else none
  | _ :: t => if sep.isPrefixOf hay then some (hay.drop sep.length) else splitAfterFirst t sep

/-! ## Guardian (`toolkit.py`, class `Guardian`) -/

/-- `Guardian.HIGH_RISK_KEYWORDS` from `toolkit.py`. -/
def HIGH_RISK_KEYWORDS : List String :=
  ["rm -rf", "mkfs", "dd if=/dev", ":()\x7b :|:& \x7d;:",
   "wget", "curl", "nc ", "ncat", "bash -i", "/dev/tcp",
   "chmod +x", "chown", "mv /"]

/-- `Guardian.FORBIDDEN_PATHS` from `toolkit.py`. -/
def FORBIDDEN_PATHS : List String :=
  ["/etc", "/var", "/usr", "/bin", "/sbin", "~/.ssh", "~/.aws", ".env"]

/-- `Guardian.check_command` from `toolkit.py`: returns `"SAFE"`,
`"HIGH_RISK"`, or `"BLOCKED"`; the Python `for`-loops with early `return`
are `List.any`. -/
def check_command (command : String) : String :=
  let command_lower := strLower command
  if strContains command_lower "rm -rf /" || strContains command ":()\x7b" then
    "BLOCKED"
  else if FORBIDDEN_PATHS.any (fun p => strContains command p) then
    "BLOCKED"
  else if HIGH_RISK_KEYWORDS.any (fun k => strContains command_lower k) then
    "HIGH_RISK"
  else if strContains command "./" || strContains command "python" || strContains command "sh " then
    "HIGH_RISK"
  else
    "SAFE"

/-! Claim-side characterisation of the classifier, written from the spec's
wording of the three ordered tiers. -/

/-- Tier 1 of the spec: destructive literal, fork-bomb literal, or a
forbidden path substring. -/
def blockedSpec (c : String) : Prop :=
  strContains (strLower c) "rm -rf /" = true ∨ strContains c ":()\x7b" = true ∨
    ∃ p ∈ FORBIDDEN_PATHS, strContains c p = true

/-- Tiers 2 and 3 of the spec: a high-risk keyword (case-insensitive
substring), a relative-path execution marker, or an interpreter/shell
invocation. -/
def highRiskSpec (c : String) : Prop :=
  (∃ k ∈ HIGH_RISK_KEYWORDS, strContains (strLower c) k = true) ∨
    strContains c "./" = true ∨ strContains c "python" = true ∨
    strContains c "sh " = true

/-! ## Episode state (`brain.py`, `AgentState`)

`current_action` is the decision dict `{thought, action, argument}`; only the
`action` and `argument` keys are ever read back by the graph, so the record
keeps those two.  `approval_status` is the string enum
`"NONE" | "REQUESTED" | "GRANTED" | "DENIED"`.  `flag_found` is
`Union[str, None]`. -/

structure ActionData where
  action : String
  argument : String
deriving DecidableEq, Repr

structure AgentState where
  challenge_name : String
  challenge_description : String
  hints : String
  files : List String
  messages : List String
  current_step : String
  tool_output : String
  flag_found : Option String
  current_action : ActionData
  approval_status : String
  flag_format : String
  expert_outputs : List (String × String)
deriving DecidableEq, Repr

/-! ## Log-message constants of `brain.py`

The source file stores its emoji prefixes as mojibake (UTF-8 bytes that were
decoded as Latin-1 once); the `\uXXXX` escapes below reproduce the code
points exactly as they appear in the file. -/

/-- Prefix of `reason_node`'s resume entry (`brain.py:362`). -/
def resumeMsg : String := "‚úÖ Permission granted. Resuming execution..."

/-- `act_node`'s denial entry (`brain.py:454`). -/
def deniedMsg : String := "‚ö†Ô∏è Action was denied by user. Stopping."

/-- `act_node`'s blocked entry prefix (`brain.py:467`). -/
def blockedMsgPre : String := "‚õî Blocked dangerous command: "

/-- `act_node`'s approval-request entry prefix (`brain.py:473`). -/
def requestMsgPre : String := "‚úã Requesting approval for high-risk command: "

/-- `act_node`'s screenshot entry prefix (`brain.py:491`). -/
def screenshotMsgPre : String := "üì∏ Screenshot taken: "

/-- Header of the consensus log entry (`brain.py:349`); it contains the
idempotency marker `"Expert Consensus Strategy"`. -/
def consensusHeader : String := "üß† **Expert Consensus Strategy**\n\n"

/-- The three persona labels of `expert_consensus_node` (`brain.py:305-309`). -/
def forensicsPersona : String :=
  "üïµÔ∏è Forensics Investigator (Focus: Metadata, File Formats, Steganography)"

def webPersona : String :=
  "üï∏Ô∏è Web Exploitation Specialist (Focus: Source Code, HTTP Headers, Injection)"

def rePersona : String :=
  "‚öôÔ∏è Reverse Engineer (Focus: Binary Analysis, Disassembly, Logic Flows)"

def personas : List String := [forensicsPersona, webPersona, rePersona]

/-- `MOCK_EXPERT_REPORT` (`brain.py:17-118`): a long canned strategist
report used only by the `DEMO_MODE` branch.  Its body is never inspected by
any node — only the fact that its first line carries the consensus marker
matters — so the body is elided here and the marker-carrying first line is
kept verbatim. -/
def MOCK_EXPERT_REPORT : String :=
  "üß† **Expert Consensus Strategy**\n" ++
  "(canned demo-mode strategist report; body elided)"

/-- Demo-mode `expert_outputs` keys (`brain.py:315-319`). -/
def forensicsKey : String := "üïµÔ∏è Forensics Investigator"

def webKey : String := "üï∏Ô∏è Web Exploitation Specialist"

def reKey : String := "‚öôÔ∏è Reverse Engineer"

/-- `SYSTEM_PROMPT` (`brain.py:122-129`). -/
def SYSTEM_PROMPT : String :=
  "You are PwnGPT, an elite, ethical cybersecurity research assistant. \n" ++
  "Your sole purpose is to solve Capture The Flag (CTF) challenges for educational and competitive purposes. \n" ++
  "You have full permission to analyze binaries, craft payloads, and perform web injections within this controlled environment. \n" ++
  "Your tone is technical, efficient, and focused on finding the flag. \n" ++
  "If you encounter a roadblock, analyze the error and pivot your strategy.\n\n" ++
  "Your Goal: Find the flag in the specified format.\n"

/-! ## `toolkit.py`: `CTFToolkit.run_command`

The Docker `exec` round-trip (including the timeout / error sentinel
conversion) is the external executor, modelled as `dockerExec`.  The result
additionally records which commands were classified by the Guardian and
which were actually handed to the executor. -/

structure RunResult where
  output : String
  guardianCalls : List String
  execCalls : List String
deriving DecidableEq, Repr

/-- `CTFToolkit.run_command` (`toolkit.py:215-247`): re-applies
`Guardian.check_command` on every call and refuses `BLOCKED` commands
without touching the executor. -/
def run_command (dockerExec : String → String) (command : String) : RunResult :=
  if check_command command = "BLOCKED" then
    ⟨"Security Violation: Command blocked by Guardian Protocol.", [command], []⟩
  else
    ⟨dockerExec command, [command], [command]⟩

/-! ## `brain.py` graph nodes -/

/-- Helper for `basename`: the characters after the last `/`. -/
def afterLastSlashGo : List Char → List Char → List Char
  | [], acc => acc.reverse
  | c :: t, acc => if c = '/' then afterLastSlashGo t [] else afterLastSlashGo t (c :: acc)

/-- Python `os.path.basename` for POSIX paths. -/
def basename (p : String) : String := String.mk (afterLastSlashGo p.data [])

/-- Python `repr` of a list of strings, as interpolated by the f-string in
`observe_node` (quote-escaping inside the names is immaterial here). -/
def pyStrListRepr (l : List String) : String :=
  "[" ++ joinSep ", " (l.map (fun x => "'" ++ x ++ "'")) ++ "]"

/-- `PwnGPTBrain.observe_node` (`brain.py:234-257`).  `inspect` stands for
`self.toolkit.inspect_file` (host file system access). -/
def observe_node (inspect : String → String) (s : AgentState) : AgentState :=
  if s.approval_status = "GRANTED" then s
  else if s.messages.any (fun m => strContains m "Observing challenge") then s
  else
    let s1 : AgentState :=
      { s with messages := s.messages ++ ["Observing challenge: " ++ s.challenge_name],
               current_step := "Observation" }
    match s.files with
    | [] => { s1 with tool_output := "No files provided. Relying on description." }
    | f :: _ =>
      let names := s.files.map basename
      { s1 with tool_output :=
          "Files available: " ++ pyStrListRepr names ++ "\nPreview of " ++ basename f ++
          ":\n" ++ inspect (basename f) }

/-- The moderator-synthesis prompt of `expert_consensus_node`
(`brain.py:333-344`). -/
def moderatorPrompt (flagFmt fullDebate : String) : String :=
  "\n        " ++ SYSTEM_PROMPT ++ "\n\n" ++
  "        Task: You are the Lead Strategist. Synthesize the following expert reports into a single, cohesive Execution Plan.\n" ++
  "        Flag Format: " ++ flagFmt ++ "\n        \n" ++
  "        [EXPERT REPORTS]\n        " ++ fullDebate ++ "\n        \n" ++
  "        Decide the single most likely path to the flag.\n" ++
  "        Provide a \"Joint Strategy\" and the immediate next step.\n        "

/-- `PwnGPTBrain.expert_consensus_node` (`brain.py:284-354`).

`demo` is the module flag `DEMO_MODE`; `expertResults` is the list of
specialist outputs in completion order (each already either the model text
or the inline `[Error: ...]` annotation produced by `run_expert`); `synth`
is the moderator call, `Except.error` standing for a raised exception.  The
returned `Bool` records whether the moderator synthesis call was issued. -/
def expert_consensus_node (demo : Bool) (expertResults : List String)
    (synth : Except String String) (s : AgentState) : AgentState × Bool :=
  if s.messages.any (fun m => strContains m "Expert Consensus Strategy") then (s, false)
  else if s.approval_status = "GRANTED" then (s, false)
  else
    let s1 : AgentState := { s with current_step := "Expert Consensus" }
    if demo then
      ({ s1 with messages := s1.messages ++ [MOCK_EXPERT_REPORT],
                 expert_outputs := [(forensicsKey, "Mock Forensics"),
                                    (webKey, "Mock Web"), (reKey, "Mock RE")] }, false)
    else
      let full_debate := joinSep "\n\n" expertResults
      let s2 : AgentState := { s1 with expert_outputs := personas.zip expertResults }
      match synth with
      | .ok consensus =>
        ({ s2 with messages := s2.messages ++
            [consensusHeader ++ consensus ++ "\n\n---\n*Detailed Reports:*\n" ++ full_debate] },
         true)
      | .error e =>
        ({ s2 with messages := s2.messages ++ ["Expert Consensus Error: " ++ e] }, true)

/-- Outcome of the reasoning-oracle round trip in `reason_node`: either a
decision dict (after the code's own JSON-repair fallbacks) or a raised
exception. -/
inductive ReasonOutcome where
  | ok (thought : String) (action : ActionData)
  | err (e : String)
deriving DecidableEq, Repr

/-- `PwnGPTBrain.reason_node` (`brain.py:356-440`).  The prompt assembly,
RAG search and screenshot attachment feed only the oracle call and are
folded into `oracle`. -/
def reason_node (oracle : ReasonOutcome) (s : AgentState) : AgentState :=
  if s.approval_status = "GRANTED" then
    { s with messages := s.messages ++ [resumeMsg] }
  else
    let s1 : AgentState := { s with current_step := "Reasoning", approval_status := "NONE" }
    match oracle with
    | .ok thought action =>
      { s1 with messages := s1.messages ++ ["Thought: " ++ thought],
                current_action := action }
    | .err e =>
      { s1 with messages := s1.messages ++ ["Reasoning Error: " ++ e],
                current_action := ⟨"finish", "Error in reasoning: " ++ e⟩ }

/-- Which `if/elif` arm of `act_node` ran. -/
inductive ActBranch where
  | denied
  | blockedCmd
  | requested
  | executed
  | webScrape
  | shot
  | finish
  | unknown
deriving DecidableEq, Repr

structure ActResult where
  state : AgentState
  branch : ActBranch
  guardianCalls : List String
  execCalls : List String
deriving DecidableEq, Repr

/-- `PwnGPTBrain.act_node` (`brain.py:442-504`).  `dockerExec`, `scrape`
and `shoot` are the external executor, `scrape_web` and `take_screenshot`.
Guardian-classifier and executor invocations are recorded. -/
def act_node (dockerExec scrape shoot : String → String) (s : AgentState) : ActResult :=
  let s0 : AgentState := { s with current_step := "Acting" }
  let aty := s.current_action.action
  let arg := s.current_action.argument
  if s.approval_status = "DENIED" then
    ⟨{ s0 with tool_output := "Action denied by user. Halting.",
               messages := s0.messages ++ [deniedMsg],
               approval_status := "NONE" }, .denied, [], []⟩
  else if aty = "command" then
    let risk := check_command arg
    if risk = "BLOCKED" then
      ⟨{ s0 with tool_output := "SECURITY VIOLATION: Command blocked by Guardian.",
                 messages := s0.messages ++ [blockedMsgPre ++ arg] }, .blockedCmd, [arg], []⟩
    else if risk = "HIGH_RISK" ∧ s.approval_status ≠ "GRANTED" then
      ⟨{ s0 with approval_status := "REQUESTED",
                 messages := s0.messages ++ [requestMsgPre ++ arg] }, .requested, [arg], []⟩
    else
      let r := run_command dockerExec arg
      ⟨{ s0 with tool_output := "Command '" ++ arg ++ "' Output:\n" ++ r.output,
                 messages := s0.messages ++ ["Ran command: " ++ arg],
                 approval_status := "NONE" }, .executed, arg :: r.guardianCalls, r.execCalls⟩
  else if aty = "web" then
    ⟨{ s0 with tool_output := "Web Scrape '" ++ arg ++ "' Output:\n" ++ scrape arg,
               messages := s0.messages ++ ["Scraped URL: " ++ arg] }, .webScrape, [], []⟩
  else if aty = "screenshot" then
    let result_path := shoot arg
    if (".png".data).isSuffixOf result_path.data then
      ⟨{ s0 with tool_output := "[SCREENSHOT]: " ++ result_path,
                 messages := s0.messages ++ [screenshotMsgPre ++ arg] }, .shot, [], []⟩
    else
      ⟨{ s0 with tool_output := "Screenshot Failed: " ++ result_path,
                 messages := s0.messages ++ ["Example Error: " ++ result_path] }, .shot, [], []⟩
  else if aty = "finish" then
    ⟨{ s0 with tool_output := "Agent decided to finish.",
               messages := s0.messages ++ ["Agent signaling completion."] }, .finish, [], []⟩
  else
    ⟨{ s0 with tool_output := "Unknown action: " ++ aty,
               messages := s0.messages ++ ["Skipping unknown action: " ++ aty] }, .unknown, [], []⟩

/-! ## `verify_node` machinery

`verify_node` uses `re.search(re.escape(fmt) + r".\x7b1,100\x7d?\\\x7d", out)`:
the leftmost start position wins, the lazy quantifier takes the smallest
content length `k ∈ [1,100]`, and `.` matches any character except a
newline.  The functions below implement exactly that. -/

/-- Lazy search for the closing brace: the smallest `k ≥ 1` such that the
first `k` characters are all non-newline and the `(k+1)`-st character is
`\x7d`, bounded by `k ≤ 100`.  Called with the text that follows the prefix
and with `k = 1`. -/
def findCloseGo : List Char → Nat → Option Nat
  | c :: d :: rest, k =>
    if c = '\n' then none
    else if d = '\x7d' then some k
    else if 100 ≤ k then none
    else findCloseGo (d :: rest) (k + 1)
  | _, _ => none

/-- Leftmost match of `fmt` followed by a 1–100 character non-newline lazy
window and a closing brace; Python falls through to later occurrences of
the prefix when an earlier one admits no match. -/
def searchGo (fmt : List Char) : List Char → Option (List Char)
  | [] => none
  | c :: rest =>
    if fmt.isPrefixOf (c :: rest) then
      match findCloseGo ((c :: rest).drop fmt.length) 1 with
      | some k => some ((c :: rest).take (fmt.length + k + 1))
      | none => searchGo fmt rest
    else searchGo fmt rest

/-- `re.search(fmt_esc + r".\x7b1,100\x7d?\\\x7d", out)` with `fmt` taken
literally (`re.escape`). -/
def regexExtract (fmt out : String) : Option String :=
  (searchGo fmt.data out.data).map (fun l => String.mk l)

/-- Lazy unbounded window for the generic `".*?\\\x7d"` patterns of the
unknown-format branch: smallest `k ≥ 0` with `k` non-newline characters
followed by `\x7d`. -/
def findCloseGeneric : List Char → Nat → Option Nat
  | [], _ => none
  | c :: rest, k =>
    if c = '\x7d' then some k
    else if c = '\n' then none
    else findCloseGeneric rest (k + 1)

/-- Leftmost case-insensitive match of a generic pattern
`prefix ++ ".*?\\\x7d"` (`re.IGNORECASE`); the returned slice keeps the
original case. -/
def searchGenericCI (pat : List Char) : List Char → Option (List Char)
  | [] => none
  | c :: rest =>
    if (pat.map charLower).isPrefixOf ((c :: rest).map charLower) then
      match findCloseGeneric ((c :: rest).drop pat.length) 0 with
      | some k => some ((c :: rest).take (pat.length + k + 1))
      | none => searchGenericCI pat rest
    else searchGenericCI pat rest

/-- The generic flag patterns of the unknown-format branch
(`brain.py:529`), without their regex suffixes. -/
def genericPatterns : List String := ["CTF\x7b", "flag\x7b", "key\x7b", "IDEH\x7b"]

/-- Characters of the base64 candidate class `[A-Za-z0-9+/=]`. -/
def isB64Char (c : Char) : Bool :=
  ('A' ≤ c && c ≤ 'Z') || ('a' ≤ c && c ≤ 'z') || ('0' ≤ c && c ≤ '9') ||
    c = '+' || c = '/' || c = '='

/-- `re.findall(r'[A-Za-z0-9+/=]\x7b20,\x7d', out)`: the maximal runs of
candidate-class characters, keeping those of length at least 20.  `cur`
accumulates the current run in reverse. -/
def b64RunsGo : List Char → List Char → List (List Char)
  | [], cur => if 20 ≤ cur.length then [cur.reverse] else []
  | c :: t, cur =>
    if isB64Char c then b64RunsGo t (c :: cur)
    else (if 20 ≤ cur.length then [cur.reverse] else []) ++ b64RunsGo t []

def b64Runs (cs : List Char) : List (List Char) := b64RunsGo cs []

/-- Value of a base64 alphabet character. -/
def b64Val (c : Char) : Nat :=
  if 'A' ≤ c && c ≤ 'Z' then c.toNat - 65
  else if 'a' ≤ c && c ≤ 'z' then c.toNat - 97 + 26
  else if '0' ≤ c && c ≤ '9' then c.toNat - 48 + 52
  else if c = '+' then 62
  else 63

/-- `base64.b64decode` (non-strict mode) on a candidate-class string:
decode 4-character groups to 3 bytes; a `=` flushes a group of 2 or 3
pending values (1 or 2 bytes) and decoding continues afterwards; a
dangling group at the end (or a `=` after a single pending value) is the
`binascii` padding error, i.e. `none`.  Candidates never contain
characters outside the class, so the char-discarding step is vacuous. -/
def b64DecodeGo : List Char → List Nat → List Nat → Option (List Nat)
  | [], acc, pend => if pend.isEmpty then some acc else none
  | c :: t, acc, pend =>
    if c = '=' then
      match pend with
      | [] => b64DecodeGo t acc []
      | [p0, p1] => b64DecodeGo t (acc ++ [p0 * 4 + p1 / 16]) []
      | [p0, p1, p2] =>
        b64DecodeGo t (acc ++ [p0 * 4 + p1 / 16, (p1 % 16) * 16 + p2 / 4]) []
      | _ => none
    else
      match pend ++ [b64Val c] with
      | [p0, p1, p2, p3] =>
        b64DecodeGo t (acc ++ [p0 * 4 + p1 / 16, (p1 % 16) * 16 + p2 / 4,
                               (p2 % 4) * 64 + p3]) []
      | pend' => b64DecodeGo t acc pend'

def b64Decode (cand : List Char) : Option (List Nat) := b64DecodeGo cand [] []

/-- `bytes.decode('utf-8', errors='ignore')`, fuelled by the byte count:
ASCII bytes map to themselves, well-formed multi-byte sequences decode,
and malformed bytes are dropped. -/
def utf8Go : Nat → List Nat → List Char
  | 0, _ => []
  | _, [] => []
  | fuel + 1, b :: t =>
    if b < 128 then Char.ofNat b :: utf8Go fuel t
    else if 194 ≤ b && b ≤ 223 then
      match t with
      | b2 :: t2 =>
        if 128 ≤ b2 && b2 ≤ 191 then
          Char.ofNat ((b - 192) * 64 + (b2 - 128)) :: utf8Go fuel t2
        else utf8Go fuel t
      | [] => []
    else if 224 ≤ b && b ≤ 239 then
      match t with
      | b2 :: b3 :: t3 =>
        if 128 ≤ b2 && b2 ≤ 191 && 128 ≤ b3 && b3 ≤ 191 &&
            !(b = 224 && b2 < 160) && !(b = 237 && 160 ≤ b2) then
          Char.ofNat ((b - 224) * 4096 + (b2 - 128) * 64 + (b3 - 128)) :: utf8Go fuel t3
        else utf8Go fuel t
      | _ => utf8Go fuel t
    else if 240 ≤ b && b ≤ 244 then
      match t with
      | b2 :: b3 :: b4 :: t4 =>
        if 128 ≤ b2 && b2 ≤ 191 && 128 ≤ b3 && b3 ≤ 191 && 128 ≤ b4 && b4 ≤ 191 &&
            !(b = 240 && b2 < 144) && !(b = 244 && 144 ≤ b2) then
          Char.ofNat ((b - 240) * 262144 + (b2 - 128) * 4096 + (b3 - 128) * 64 + (b4 - 128))
            :: utf8Go fuel t4
        else utf8Go fuel t
      | _ => utf8Go fuel t
    else utf8Go fuel t

def utf8DecodeIgnore (bs : List Nat) : List Char := utf8Go bs.length bs

/-- The generic-pattern loop of the unknown-format branch
(`brain.py:529-536`): first pattern with a match wins. -/
def genericLoop (s0 : AgentState) : List String → List Char → AgentState
  | [], _ => s0
  | p :: ps, out =>
    match searchGenericCI p.data out with
    | some m =>
      { s0 with flag_found := some (String.mk m),
                messages := s0.messages ++ ["SUCCESS: Flag found (generic) -> " ++ String.mk m] }
    | none => genericLoop s0 ps out

/-- The base64-candidate loop (`brain.py:557-576`): decode failures and
candidates without the format (or without a window match) are skipped. -/
def b64Loop (s0 : AgentState) (fmt : String) : List (List Char) → AgentState
  | [] => s0
  | cand :: cs =>
    match b64Decode cand with
    | none => b64Loop s0 fmt cs
    | some bytes =>
      let decoded := utf8DecodeIgnore bytes
      if containsSub decoded fmt.data then
        match searchGo fmt.data decoded with
        | some m =>
          { s0 with flag_found := some (String.mk m),
                    messages := s0.messages ++
                      ["SUCCESS: Flag found (Base64 Decoded from '" ++ String.mk cand ++
                       "') -> " ++ String.mk m] }
        | none => b64Loop s0 fmt cs
      else b64Loop s0 fmt cs

/-- `PwnGPTBrain.verify_node` (`brain.py:506-578`). -/
def verify_node (s : AgentState) : AgentState :=
  if s.approval_status = "REQUESTED" then s
  else
    let s0 : AgentState := { s with current_step := "Verification" }
    let command_output : List Char :=
      match splitAfterFirst s.tool_output.data "Output:\n".data with
      | some t => t
      | none => s.tool_output.data
    let fmt := s.flag_format
    if strLower fmt = "unknown" then
      genericLoop s0 genericPatterns command_output
    else if containsSub command_output fmt.data then
      match searchGo fmt.data command_output with
      | some m =>
        { s0 with flag_found := some (String.mk m),
                  messages := s0.messages ++ ["SUCCESS: Flag found -> " ++ String.mk m] }
      | none => b64Loop s0 fmt (b64Runs command_output)
    else b64Loop s0 fmt (b64Runs command_output)

/-! ## `check_success` (`brain.py:580-601`) -/

/-- LangGraph's terminal sentinel `END`. -/
def END : String := "__end__"

/-- Python truthiness of `Union[str, None]`: `None` and `""` are falsy. -/
def pyTruthy : Option String → Bool
  | none => false
  | some f => !(f = "")

/-- `PwnGPTBrain.check_success` (`brain.py:580-601`). -/
def check_success (s : AgentState) : String :=
  if s.approval_status = "REQUESTED" then END
  else if s.approval_status = "DENIED" then END
  else if pyTruthy s.flag_found then END
  else if 20 < s.messages.length then END
  else "reason"

/-- The transition function as C4 words it: approval pause, success, step
budget, else loop — without the dead `DENIED` arm. -/
def check_success_spec (s : AgentState) : String :=
  if s.approval_status = "REQUESTED" then END
  else if pyTruthy s.flag_found then END
  else if 20 < s.messages.length then END
  else "reason"

/-! ## Concrete episode states used by the theorems below -/

/-- A fresh episode context, as `app.py` creates it (flag format `CTF\x7b`). -/
def baseState : AgentState :=
  { challenge_name := "Test", challenge_description := "Test", hints := "",
    files := [], messages := [], current_step := "Act", tool_output := "",
    flag_found := none, current_action := ⟨"", ""⟩, approval_status := "NONE",
    flag_format := "CTF\x7b", expert_outputs := [] }

/-- `baseState` about to verify a given tool output. -/
def vState (out : String) : AgentState := { baseState with tool_output := out }

/-- A high-risk pending command with a `DENIED` approval. -/
def c1DeniedState : AgentState :=
  { baseState with approval_status := "DENIED",
                   current_action := ⟨"command", "wget http://x"⟩ }

/-- A high-risk pending command with no approval yet. -/
def c1PendingState : AgentState :=
  { baseState with current_action := ⟨"command", "wget http://x"⟩ }

/-- A high-risk pending command whose approval was granted. -/
def c3GrantedState : AgentState :=
  { baseState with approval_status := "GRANTED",
                   current_action := ⟨"command", "wget http://x"⟩ }

/-- Output where `base64("CTF\x7bxyz\x7d") = "Q1RGe3h5en0="` (12 characters)
sits between more than 20 characters of non-alphabet-adjacent noise. -/
def c6CexState : AgentState := vState "xxxxxxxxxx yyyyyyyyyy Q1RGe3h5en0= zzzz"

/-- The scenario of `test_base64_flag.py`: `base64("CTF\x7bhidden_in_blocks\x7d")`
(28 characters) inside scan noise. -/
def c6TestState : AgentState :=
  vState "Scanning memory... Found string: Q1RGe2hpZGRlbl9pbl9ibG9ja3N9 ... Done."

/-- As `c6TestState`, but preceded by a 21-character candidate that fails
base64 decoding (length 1 mod 4). -/
def c6SkipState : AgentState :=
  vState "AAAAAAAAAAAAAAAAAAAAA stuff Q1RGe2hpZGRlbl9pbl9ibG9ja3N9 end"

/-- A state whose log already carries the observation marker. -/
def obsMarkedState : AgentState :=
  { baseState with messages := ["Observing challenge: Test"] }

/-- A state whose log already carries the consensus marker. -/
def consMarkedState : AgentState :=
  { baseState with messages := ["Expert Consensus Strategy"] }

/-! ## Helper lemmas -/

theorem containsSub_nil (h : List Char) : containsSub h [] = true := by
  cases h <;> simp [containsSub, List.isPrefixOf]

theorem containsSub_refl (m : List Char) : containsSub m m = true := by
  cases m with
  | nil => simp [containsSub]
  | cons c t => simp [containsSub, List.isPrefixOf_iff_prefix]

theorem isPrefixOf_append_of_isPrefixOf {m l b : List Char}
    (h : m.isPrefixOf l = true) : m.isPrefixOf (l ++ b) = true := by
  rw [List.isPrefixOf_iff_prefix] at h ⊢
  exact h.trans (List.prefix_append l b)

theorem containsSub_append_left {a m : List Char} (b : List Char)
    (h : containsSub a m = true) : containsSub (a ++ b) m = true := by
  induction a with
  | nil =>
    simp [containsSub] at h
    subst h
    exact containsSub_nil b
  | cons c t ih =>
    simp only [containsSub, Bool.or_eq_true] at h ⊢
    rcases h with h | h
    · exact Or.inl (isPrefixOf_append_of_isPrefixOf h)
    · exact Or.inr (ih h)

theorem containsSub_append_right (a : List Char) {b m : List Char}
    (h : containsSub b m = true) : containsSub (a ++ b) m = true := by
  induction a with
  | nil => simpa using h
  | cons c t ih => simp only [containsSub, Bool.or_eq_true]; exact Or.inr ih

theorem strData_append (a b : String) : (a ++ b).data = a.data ++ b.data := rfl

theorem strContains_append_left {a : String} (b : String) {m : String}
    (h : strContains a m = true) : strContains (a ++ b) m = true := by
  unfold strContains at h ⊢
  rw [strData_append]
  exact containsSub_append_left _ h

theorem strContains_append_right (a : String) {b m : String}
    (h : strContains b m = true) : strContains (a ++ b) m = true := by
  unfold strContains at h ⊢
  rw [strData_append]
  exact containsSub_append_right _ h

theorem strContains_refl (m : String) : strContains m m = true :=
  containsSub_refl m.data

theorem strContains_joinSep (sep : String) {rs : List String} {r : String}
    (h : r ∈ rs) : strContains (joinSep sep rs) r = true := by
  induction rs with
  | nil => cases h
  | cons x xs ih =>
    cases xs with
    | nil =>
      rcases List.mem_singleton.mp h with rfl
      exact strContains_refl r
    | cons y ys =>
      rcases List.mem_cons.mp h with rfl | h2
      · show strContains (r ++ sep ++ joinSep sep (y :: ys)) r = true
        exact strContains_append_left _ (strContains_append_left _ (strContains_refl r))
      · show strContains (x ++ sep ++ joinSep sep (y :: ys)) r = true
        exact strContains_append_right _ (ih h2)

theorem genericLoop_approval (s0 : AgentState) (ps : List String) (out : List Char) :
    (genericLoop s0 ps out).approval_status = s0.approval_status := by
  induction ps with
  | nil => rfl
  | cons p pt ih =>
    unfold genericLoop
    cases searchGenericCI p.data out <;> simp [ih]

theorem b64Loop_approval (s0 : AgentState) (fmt : String) (cs : List (List Char)) :
    (b64Loop s0 fmt cs).approval_status = s0.approval_status := by
  induction cs with
  | nil => rfl
  | cons c ct ih =>
    unfold b64Loop
    cases b64Decode c with
    | none => simpa using ih
    | some bytes =>
      by_cases hc : containsSub (utf8DecodeIgnore bytes) fmt.data = true
      · simp only [hc, if_pos]
        cases searchGo fmt.data (utf8DecodeIgnore bytes) <;> simp [ih]
      · simp only [Bool.not_eq_true] at hc
        simp [hc, ih]

theorem verify_node_approval (s : AgentState) :
    (verify_node s).approval_status = s.approval_status := by
  unfold verify_node
  by_cases hr : s.approval_status = "REQUESTED"
  · simp [hr]
  · simp only [hr, if_neg, if_false]
    split
    · exact genericLoop_approval _ _ _
    · split
      · split <;> simp [b64Loop_approval]
      · exact b64Loop_approval _ _ _

theorem genericLoop_messages (s0 : AgentState) (ps : List String) (out : List Char) :
    s0.messages <+: (genericLoop s0 ps out).messages := by
  induction ps with
  | nil => exact ⟨[], by simp [genericLoop]⟩
  | cons p pt ih =>
    unfold genericLoop
    cases searchGenericCI p.data out with
    | none => exact ih
    | some m => exact ⟨_, rfl⟩

theorem b64Loop_messages (s0 : AgentState) (fmt : String) (cs : List (List Char)) :
    s0.messages <+: (b64Loop s0 fmt cs).messages := by
  induction cs with
  | nil => exact ⟨[], by simp [b64Loop]⟩
  | cons c ct ih =>
    unfold b64Loop
    cases b64Decode c with
    | none => exact ih
    | some bytes =>
      by_cases hc : containsSub (utf8DecodeIgnore bytes) fmt.data = true
      · simp only [hc, if_pos]
        cases searchGo fmt.data (utf8DecodeIgnore bytes) with
        | none => exact ih
        | some m => exact ⟨_, rfl⟩
      · simp only [Bool.not_eq_true] at hc
        simp only [hc]
        exact ih

theorem act_node_approval_ne_denied (de sc sh : String → String) (s : AgentState) :
    (act_node de sc sh s).state.approval_status ≠ "DENIED" := by
  unfold act_node
  by_cases hd : s.approval_status = "DENIED"
  · simp [hd]
  · simp only [hd, if_false]
    split
    · split
      · simpa using hd
      · split
        · simp
        · simp
    · split
      · simpa using hd
      · split
        · split <;> simpa using hd
        · split <;> simpa using hd

theorem check_success_of_ne_denied {s : AgentState}
    (h : s.approval_status ≠ "DENIED") : check_success s = check_success_spec s := by
  unfold check_success check_success_spec
  simp [h]

theorem act_node_branch_ne_denied (de sc sh : String → String) {s : AgentState}
    (h : s.approval_status ≠ "DENIED") :
    (act_node de sc sh s).branch ≠ ActBranch.denied := by
  unfold act_node
  simp only [h, if_false]
  split
  · split
    · simp
    · split <;> simp
  · split
    · simp
    · split
      · split <;> simp
      · split <;> simp

theorem observe_node_approval (inspect : String → String) (s : AgentState) :
    (observe_node inspect s).approval_status = s.approval_status := by
  unfold observe_node
  split
  · rfl
  · split
    · rfl
    · split <;> rfl

theorem expert_consensus_node_approval (demo : Bool) (ers : List String)
    (synth : Except String String) (s : AgentState) :
    (expert_consensus_node demo ers synth s).1.approval_status = s.approval_status := by
  unfold expert_consensus_node
  split
  · rfl
  · split
    · rfl
    · split
      · rfl
      · split <;> rfl

theorem reason_node_approval_of_ne_granted (o : ReasonOutcome) {s : AgentState}
    (h : s.approval_status ≠ "GRANTED") :
    (reason_node o s).approval_status = "NONE" := by
  unfold reason_node
  simp only [h, if_false]
  split <;> rfl

/-! ## Claim theorems -/

/-- C2: `Guardian.check_command` implements the ordered first-match-wins
three-tier algorithm: `"BLOCKED"` exactly when the command contains the
root recursive-delete literal (case-insensitively), the fork-bomb literal
`":()\x7b"`, or any forbidden path as a raw substring — regardless of any
other content; otherwise `"HIGH_RISK"` exactly when it contains a
high-risk keyword case-insensitively, the relative-path marker `"./"`, or
an interpreter/shell invocation (`"python"`, `"sh "`); otherwise
`"SAFE"`. -/
theorem check_command_three_tier (c : String) :
    (check_command c = "BLOCKED" ↔ blockedSpec c) ∧
    (check_command c = "HIGH_RISK" ↔ (¬ blockedSpec c ∧ highRiskSpec c)) ∧
    (check_command c = "SAFE" ↔ (¬ blockedSpec c ∧ ¬ highRiskSpec c)) := by
  have e1 : (∃ p ∈ FORBIDDEN_PATHS, strContains c p = true) ↔
      FORBIDDEN_PATHS.any (fun p => strContains c p) = true := by
    simp [List.any_eq_true]
  have e2 : (∃ k ∈ HIGH_RISK_KEYWORDS, strContains (strLower c) k = true) ↔
      HIGH_RISK_KEYWORDS.any (fun k => strContains (strLower c) k) = true := by
    simp [List.any_eq_true]
  unfold check_command blockedSpec highRiskSpec
  rw [e1, e2]
  cases h1 : strContains (strLower c) "rm -rf /" <;>
    cases h2 : strContains c ":()\x7b" <;>
    cases h3 : FORBIDDEN_PATHS.any (fun p => strContains c p) <;>
    cases h4 : HIGH_RISK_KEYWORDS.any (fun k => strContains (strLower c) k) <;>
    cases h5 : strContains c "./" <;>
    cases h6 : strContains c "python" <;>
    cases h7 : strContains c "sh " <;>
    simp [h1, h2, h3, h4, h5, h6, h7]

/-- C4: on every state the graph can actually hand to the `verify`
conditional edge — i.e. the image of `act_node` followed by `verify_node`,
the only path into it — `check_success` agrees with the four ordered cases
of the claim: `REQUESTED` halts, a (non-empty) `flag_found` halts, more
than 20 log entries halt, otherwise loop to `"reason"`.  The extra
`DENIED` arm in the source is dead there: `act_node` never emits a
`DENIED` state (`act_node_approval_ne_denied`) and `verify_node` preserves
the approval field.  The budget halt does not touch `flag_found`, so it is
reported as a stall, not a success. -/
theorem check_success_reachable_cases (de sc sh : String → String) (s : AgentState) :
    check_success (verify_node (act_node de sc sh s).state) =
      check_success_spec (verify_node (act_node de sc sh s).state) := by
  apply check_success_of_ne_denied
  rw [verify_node_approval]
  exact act_node_approval_ne_denied de sc sh s

/-- C8: starting a controller invocation at `observe` with a `DENIED`
approval, the planning stage resets the approval to `"NONE"` before the
acting stage runs (`observe`/`synthesize` never write the approval field,
and `reason_node`'s non-`GRANTED` path assigns `"NONE"` unconditionally),
so `act_node`'s dedicated `DENIED` branch is never taken along
`observe → synthesize → reason → act`. -/
theorem denied_reset_before_act (insp de sc sh : String → String) (demo : Bool)
    (ers : List String) (synth : Except String String) (o : ReasonOutcome)
    (s : AgentState) (hd : s.approval_status = "DENIED") :
    (reason_node o (expert_consensus_node demo ers synth (observe_node insp s)).1).approval_status
        = "NONE" ∧
    (act_node de sc sh
        (reason_node o (expert_consensus_node demo ers synth (observe_node insp s)).1)).branch
      ≠ ActBranch.denied := by
  have h1 : (expert_consensus_node demo ers synth (observe_node insp s)).1.approval_status
      = "DENIED" := by
    rw [expert_consensus_node_approval, observe_node_approval, hd]
  have h2 : (reason_node o (expert_consensus_node demo ers synth (observe_node insp s)).1).approval_status
      = "NONE" :=
    reason_node_approval_of_ne_granted o (by simp [h1])
  exact ⟨h2, act_node_branch_ne_denied de sc sh (by simp [h2])⟩

/-- C8 witness: a concrete `DENIED` episode state. -/
theorem denied_reset_before_act_witness :
    (reason_node (.ok "t" ⟨"command", "ls"⟩)
        (expert_consensus_node true [] (.ok "")
          (observe_node (fun _ => "") c1DeniedState)).1).approval_status = "NONE" ∧
    (act_node (fun _ => "") (fun _ => "") (fun _ => "")
        (reason_node (.ok "t" ⟨"command", "ls"⟩)
          (expert_consensus_node true [] (.ok "")
            (observe_node (fun _ => "") c1DeniedState)).1)).branch
      ≠ ActBranch.denied :=
  denied_reset_before_act (fun _ => "") (fun _ => "") (fun _ => "") (fun _ => "")
    true [] (.ok "") (.ok "t" ⟨"command", "ls"⟩) c1DeniedState (by decide)

/-- C9: every node of the graph only ever appends to the log: the input
state's `messages` list is a prefix (same order, no truncation, no
reordering) of the output state's, for every node and every input; hence
the log length is monotonically non-decreasing across any sequence of
stage executions. -/
theorem log_append_only :
    (∀ (insp : String → String) (s : AgentState),
        s.messages <+: (observe_node insp s).messages) ∧
    (∀ (demo : Bool) (ers : List String) (synth : Except String String) (s : AgentState),
        s.messages <+: (expert_consensus_node demo ers synth s).1.messages) ∧
    (∀ (o : ReasonOutcome) (s : AgentState),
        s.messages <+: (reason_node o s).messages) ∧
    (∀ (de sc sh : String → String) (s : AgentState),
        s.messages <+: (act_node de sc sh s).state.messages) ∧
    (∀ (s : AgentState), s.messages <+: (verify_node s).messages) := by
  refine ⟨?_, ?_, ?_, ?_, ?_⟩
  · intro insp s
    unfold observe_node
    split
    · exact ⟨[], by simp⟩
    · split
      · exact ⟨[], by simp⟩
      · split <;> exact ⟨_, rfl⟩
  · intro demo ers synth s
    unfold expert_consensus_node
    split
    · exact ⟨[], by simp⟩
    · split
      · exact ⟨[], by simp⟩
      · split
        · exact ⟨_, rfl⟩
        · split <;> exact ⟨_, rfl⟩
  · intro o s
    unfold reason_node
    split
    · exact ⟨_, rfl⟩
    · split <;> exact ⟨_, rfl⟩
  · intro de sc sh s
    unfold act_node
    by_cases hd : s.approval_status = "DENIED"
    · rw [if_pos hd]
      exact ⟨_, rfl⟩
    · simp only [hd, if_false]
      split
      · split
        · exact ⟨_, rfl⟩
        · split <;> exact ⟨_, rfl⟩
      · split
        · exact ⟨_, rfl⟩
        · split
          · split <;> exact ⟨_, rfl⟩
          · split <;> exact ⟨_, rfl⟩
  · intro s
    unfold verify_node
    by_cases hr : s.approval_status = "REQUESTED"
    · rw [if_pos hr]
    · rw [if_neg hr]
      dsimp only
      split
      · exact genericLoop_messages { s with current_step := "Verification" } _ _
      · split
        · split
          · exact ⟨_, rfl⟩
          · exact b64Loop_messages { s with current_step := "Verification" } _ _
        · exact b64Loop_messages { s with current_step := "Verification" } _ _

/-- C10: `CTFToolkit.run_command` re-applies the Guardian classifier on
every call (last conjunct, with no hypothesis on the command), and on a
`BLOCKED` command returns the violation sentinel without ever invoking the
Docker executor. -/
theorem run_command_blocked_guard (de : String → String) (cmd : String)
    (hb : check_command cmd = "BLOCKED") :
    (run_command de cmd).output
        = "Security Violation: Command blocked by Guardian Protocol." ∧
    (run_command de cmd).execCalls = [] ∧
    (∀ (de2 : String → String) (cmd2 : String),
        (run_command de2 cmd2).guardianCalls = [cmd2]) := by
  refine ⟨?_, ?_, ?_⟩
  · unfold run_command; simp [hb]
  · unfold run_command; simp [hb]
  · intro de2 cmd2
    unfold run_command
    split <;> rfl

/-- C10 witness: the root recursive delete is blocked and never executed. -/
theorem run_command_blocked_guard_witness :
    (run_command (fun _ => "ran!") "rm -rf /").output
        = "Security Violation: Command blocked by Guardian Protocol." ∧
    (run_command (fun _ => "ran!") "rm -rf /").execCalls = [] ∧
    (∀ (de2 : String → String) (cmd2 : String),
        (run_command de2 cmd2).guardianCalls = [cmd2]) :=
  run_command_blocked_guard (fun _ => "ran!") "rm -rf /" (by decide)

/-- C1 counterexample: a `DENIED` state with a pending HIGH_RISK command
satisfies the claim's premise (`kind = command`, classifier says
`HIGH_RISK`, approval is not `"GRANTED"`), yet `act_node` takes its
denial branch instead: the approval becomes `"NONE"`, not
`"REQUESTED"`, and the subsequent `verify`/`check_success` step returns
`"reason"` (loops) rather than `END`. -/
theorem act_denied_not_requested_cex :
    check_command c1DeniedState.current_action.argument = "HIGH_RISK" ∧
    c1DeniedState.current_action.action = "command" ∧
    c1DeniedState.approval_status ≠ "GRANTED" ∧
    (act_node (fun _ => "") (fun _ => "") (fun _ => "") c1DeniedState).state.approval_status
      ≠ "REQUESTED" ∧
    (act_node (fun _ => "") (fun _ => "") (fun _ => "") c1DeniedState).state.approval_status
      = "NONE" ∧
    check_success (verify_node
        (act_node (fun _ => "") (fun _ => "") (fun _ => "") c1DeniedState).state)
      = "reason" := by
  decide

/-- C1 (amended): for a pending `command` action classified `HIGH_RISK`,
when the approval is neither `"GRANTED"` nor `"DENIED"` (a `DENIED`
approval is consumed by `act_node`'s denial branch instead, and is reset
by `reason_node` before `act_node` along the documented path — see
`denied_reset_before_act`), `act_node` takes its approval-request arm:
the executor is not invoked (`run_command` is reached only in the
`executed` arm), the approval becomes `"REQUESTED"`, the pending command
is recorded in the log, `verify_node` passes the state through untouched
and `check_success` halts the graph with `END`. -/
theorem high_risk_pause_requested (de sc sh : String → String) (s : AgentState)
    (hk : s.current_action.action = "command")
    (hr : check_command s.current_action.argument = "HIGH_RISK")
    (hg : s.approval_status ≠ "GRANTED")
    (hd : s.approval_status ≠ "DENIED") :
    (act_node de sc sh s).branch = ActBranch.requested ∧
    (act_node de sc sh s).execCalls = [] ∧
    (act_node de sc sh s).state.approval_status = "REQUESTED" ∧
    (act_node de sc sh s).state.messages
      = s.messages ++ [requestMsgPre ++ s.current_action.argument] ∧
    verify_node (act_node de sc sh s).state = (act_node de sc sh s).state ∧
    check_success (act_node de sc sh s).state = END := by
  have hact : act_node de sc sh s =
      ⟨{ s with current_step := "Acting", approval_status := "REQUESTED",
                messages := s.messages ++ [requestMsgPre ++ s.current_action.argument] },
       .requested, [s.current_action.argument], []⟩ := by
    unfold act_node
    rw [if_neg hd]
    simp [hk, hr, hg]
  refine ⟨by rw [hact], by rw [hact], by rw [hact], by rw [hact], ?_, by rw [hact]; rfl⟩
  rw [hact]
  unfold verify_node
  rw [if_pos rfl]

/-- C1 witness: a fresh (`approval = "NONE"`) pending `wget` command. -/
theorem high_risk_pause_requested_witness :
    (act_node (fun _ => "") (fun _ => "") (fun _ => "") c1PendingState).branch
        = ActBranch.requested ∧
    (act_node (fun _ => "") (fun _ => "") (fun _ => "") c1PendingState).execCalls = [] ∧
    (act_node (fun _ => "") (fun _ => "") (fun _ => "") c1PendingState).state.approval_status
        = "REQUESTED" ∧
    (act_node (fun _ => "") (fun _ => "") (fun _ => "") c1PendingState).state.messages
        = c1PendingState.messages ++ [requestMsgPre ++ c1PendingState.current_action.argument] ∧
    verify_node (act_node (fun _ => "") (fun _ => "") (fun _ => "") c1PendingState).state
        = (act_node (fun _ => "") (fun _ => "") (fun _ => "") c1PendingState).state ∧
    check_success (act_node (fun _ => "") (fun _ => "") (fun _ => "") c1PendingState).state
        = END :=
  high_risk_pause_requested (fun _ => "") (fun _ => "") (fun _ => "") c1PendingState
    (by decide) (by decide) (by decide) (by decide)

/-- C3 counterexample: with approval `"GRANTED"` and a pending HIGH_RISK
command, `reason_node` does not pass the context through unchanged — it
appends a resume log entry — and `act_node` does re-classify the pending
argument (twice, in fact: its own `Guardian.check_command` call plus the
one inside `run_command`). -/
theorem granted_resume_cex :
    reason_node (.ok "t" ⟨"command", "ls"⟩) c3GrantedState ≠ c3GrantedState ∧
    (act_node (fun _ => "out") (fun _ => "") (fun _ => "")
        (reason_node (.ok "t" ⟨"command", "ls"⟩) c3GrantedState)).guardianCalls
      = ["wget http://x", "wget http://x"] := by
  decide

/-- C3 (amended): on a `"GRANTED"` resume, `observe_node` and
`expert_consensus_node` pass the context through unchanged (and the
consensus synthesis is not called); `reason_node` keeps the pending action
and approval intact but appends a resume log entry; `act_node` re-runs the
risk classification on the unchanged argument and — the approval being
`"GRANTED"` — executes that same pending command (provided it is not
`BLOCKED`, which the Guardian re-check would still stop). -/
theorem granted_resume_behavior (insp de sc sh : String → String) (demo : Bool)
    (ers : List String) (synth : Except String String) (o : ReasonOutcome)
    (s : AgentState)
    (hg : s.approval_status = "GRANTED")
    (hk : s.current_action.action = "command")
    (hnb : check_command s.current_action.argument ≠ "BLOCKED") :
    observe_node insp s = s ∧
    expert_consensus_node demo ers synth s = (s, false) ∧
    (reason_node o s).current_action = s.current_action ∧
    (reason_node o s).approval_status = "GRANTED" ∧
    (reason_node o s).messages = s.messages ++ [resumeMsg] ∧
    (act_node de sc sh (reason_node o s)).branch = ActBranch.executed ∧
    (act_node de sc sh (reason_node o s)).guardianCalls
      = [s.current_action.argument, s.current_action.argument] ∧
    (act_node de sc sh (reason_node o s)).execCalls = [s.current_action.argument] ∧
    (act_node de sc sh (reason_node o s)).state.tool_output
      = "Command '" ++ s.current_action.argument ++ "' Output:\n"
          ++ de s.current_action.argument := by
  have hobs : observe_node insp s = s := by
    unfold observe_node
    rw [if_pos hg]
  have hcons : expert_consensus_node demo ers synth s = (s, false) := by
    unfold expert_consensus_node
    by_cases hm : s.messages.any (fun m => strContains m "Expert Consensus Strategy") = true
    · rw [if_pos hm]
    · rw [if_neg hm, if_pos hg]
  have hreason : reason_node o s = { s with messages := s.messages ++ [resumeMsg] } := by
    unfold reason_node
    rw [if_pos hg]
  have hrun : run_command de s.current_action.argument =
      ⟨de s.current_action.argument, [s.current_action.argument],
       [s.current_action.argument]⟩ := by
    unfold run_command
    rw [if_neg hnb]
  have hact : act_node de sc sh (reason_node o s) =
      ⟨{ s with current_step := "Acting",
                messages := (s.messages ++ [resumeMsg]) ++
                  ["Ran command: " ++ s.current_action.argument],
                tool_output := "Command '" ++ s.current_action.argument ++ "' Output:\n"
                  ++ de s.current_action.argument,
                approval_status := "NONE" },
       .executed, [s.current_action.argument, s.current_action.argument],
       [s.current_action.argument]⟩ := by
    rw [hreason]
    unfold act_node
    rw [if_neg (by simp [hg])]
    simp only [hk, if_pos]
    rw [if_neg (by simpa using hnb), if_neg (by simp [hg]), hrun]
  exact ⟨hobs, hcons, by rw [hreason], by rw [hreason]; exact hg, by rw [hreason],
    by rw [hact], by rw [hact], by rw [hact], by rw [hact]⟩

/-- C3 witness: the granted `wget` command resumes and executes. -/
theorem granted_resume_behavior_witness :
    observe_node (fun _ => "") c3GrantedState = c3GrantedState ∧
    expert_consensus_node true [] (.ok "") c3GrantedState = (c3GrantedState, false) ∧
    (reason_node (.ok "t" ⟨"finish", ""⟩) c3GrantedState).current_action
        = c3GrantedState.current_action ∧
    (reason_node (.ok "t" ⟨"finish", ""⟩) c3GrantedState).approval_status = "GRANTED" ∧
    (reason_node (.ok "t" ⟨"finish", ""⟩) c3GrantedState).messages
        = c3GrantedState.messages ++ [resumeMsg] ∧
    (act_node (fun _ => "got it") (fun _ => "") (fun _ => "")
        (reason_node (.ok "t" ⟨"finish", ""⟩) c3GrantedState)).branch = ActBranch.executed ∧
    (act_node (fun _ => "got it") (fun _ => "") (fun _ => "")
        (reason_node (.ok "t" ⟨"finish", ""⟩) c3GrantedState)).guardianCalls
        = [c3GrantedState.current_action.argument, c3GrantedState.current_action.argument] ∧
    (act_node (fun _ => "got it") (fun _ => "") (fun _ => "")
        (reason_node (.ok "t" ⟨"finish", ""⟩) c3GrantedState)).execCalls
        = [c3GrantedState.current_action.argument] ∧
    (act_node (fun _ => "got it") (fun _ => "") (fun _ => "")
        (reason_node (.ok "t" ⟨"finish", ""⟩) c3GrantedState)).state.tool_output
        = "Command '" ++ c3GrantedState.current_action.argument ++ "' Output:\n"
            ++ (fun _ => "got it") c3GrantedState.current_action.argument :=
  granted_resume_behavior (fun _ => "") (fun _ => "got it") (fun _ => "") (fun _ => "")
    true [] (.ok "") (.ok "t" ⟨"finish", ""⟩) c3GrantedState
    (by decide) (by decide) (by decide)

theorem containsSub_iff_infix (h n : List Char) : containsSub h n = true ↔ n <:+: h := by
  induction h with
  | nil => simp [containsSub, List.isEmpty_iff]
  | cons c t ih =>
    simp [containsSub, List.infix_cons_iff, List.isPrefixOf_iff_prefix, ih]

theorem strContains_trans {a b c : String} (h1 : strContains a b = true)
    (h2 : strContains b c = true) : strContains a c = true := by
  rw [strContains, containsSub_iff_infix] at h1 h2 ⊢
  exact h2.trans h1

theorem moderatorPrompt_contains_debate (f d : String) :
    strContains (moderatorPrompt f d) d = true := by
  unfold moderatorPrompt
  exact strContains_append_left _ (strContains_append_left _ (strContains_append_left _
    (strContains_append_right _ (strContains_refl d))))

theorem consensus_msg_marker (c d : String) :
    strContains (consensusHeader ++ c ++ "\n\n---\n*Detailed Reports:*\n" ++ d)
      "Expert Consensus Strategy" = true :=
  strContains_append_left _ (strContains_append_left _ (strContains_append_left _ (by decide)))

theorem any_marker_append (l : List String) (m : String)
    (hm : strContains m "Expert Consensus Strategy" = true) :
    (l ++ [m]).any (fun x => strContains x "Expert Consensus Strategy") = true :=
  List.any_eq_true.mpr ⟨m, List.mem_append_right l (by simp), hm⟩

/-- C7 counterexample: when the moderator synthesis call raises, the
appended log entry (`"Expert Consensus Error: ..."`) does not carry the
consensus marker, so a second controller invocation on the very same
resumed context issues the synthesis call again — it does not run
"exactly once per episode". -/
theorem consensus_rerun_after_error_cex :
    (expert_consensus_node false ["### P\n[Error: boom]"] (.error "503") baseState).2
        = true ∧
    (expert_consensus_node false ["### P\n[Error: boom]"] (.ok "plan")
        (expert_consensus_node false ["### P\n[Error: boom]"] (.error "503") baseState).1).2
      = true := by
  decide

/-- C7 (amended): `observe_node` and `expert_consensus_node` are
idempotent with respect to their log markers (any state whose log carries
the marker passes through unchanged, with no synthesis call); after an
invocation whose synthesis call *succeeds* (or runs in demo mode), the
appended entry carries the marker, so any further invocation on the same
context is a no-op and the synthesis runs exactly once; and the synthesis
prompt contains every specialist result, error-annotated ones included.
(When the synthesis call itself raises, the error entry lacks the marker
and the stage runs again on the next invocation — see the
counterexample.) -/
theorem consensus_idempotent_and_reflects :
    (∀ (insp : String → String) (s : AgentState),
        s.messages.any (fun m => strContains m "Observing challenge") = true →
        observe_node insp s = s) ∧
    (∀ (demo : Bool) (ers : List String) (synth : Except String String) (s : AgentState),
        s.messages.any (fun m => strContains m "Expert Consensus Strategy") = true →
        expert_consensus_node demo ers synth s = (s, false)) ∧
    (∀ (d1 : Bool) (ers : List String) (c : String) (d2 : Bool) (es2 : List String)
        (sy2 : Except String String) (s : AgentState),
        expert_consensus_node d2 es2 sy2 (expert_consensus_node d1 ers (.ok c) s).1
          = ((expert_consensus_node d1 ers (.ok c) s).1, false)) ∧
    (∀ (fmt : String) (rs : List String) (r : String), r ∈ rs →
        strContains (moderatorPrompt fmt (joinSep "\n\n" rs)) r = true) := by
  refine ⟨?_, ?_, ?_, ?_⟩
  · intro insp s hm
    unfold observe_node
    by_cases hg : s.approval_status = "GRANTED"
    · rw [if_pos hg]
    · rw [if_neg hg, if_pos hm]
  · intro demo ers synth s hm
    unfold expert_consensus_node
    rw [if_pos hm]
  · intro d1 ers c d2 es2 sy2 s
    by_cases hm : s.messages.any (fun m => strContains m "Expert Consensus Strategy") = true
    · have h1 : (expert_consensus_node d1 ers (.ok c) s).1 = s := by
        unfold expert_consensus_node
        rw [if_pos hm]
      rw [h1]
      unfold expert_consensus_node
      rw [if_pos hm]
    · by_cases hg : s.approval_status = "GRANTED"
      · have h1 : (expert_consensus_node d1 ers (.ok c) s).1 = s := by
          unfold expert_consensus_node
          rw [if_neg hm, if_pos hg]
        rw [h1]
        unfold expert_consensus_node
        rw [if_neg hm, if_pos hg]
      · cases d1 with
        | true =>
          have h1 : (expert_consensus_node true ers (.ok c) s).1 =
              { s with current_step := "Expert Consensus",
                       messages := s.messages ++ [MOCK_EXPERT_REPORT],
                       expert_outputs := [(forensicsKey, "Mock Forensics"),
                                          (webKey, "Mock Web"), (reKey, "Mock RE")] } := by
            unfold expert_consensus_node
            rw [if_neg hm, if_neg hg]
            rfl
          rw [h1]
          unfold expert_consensus_node
          rw [if_pos (any_marker_append _ _ (by decide))]
        | false =>
          have h1 : (expert_consensus_node false ers (.ok c) s).1 =
              { s with current_step := "Expert Consensus",
                       messages := s.messages ++
                         [consensusHeader ++ c ++ "\n\n---\n*Detailed Reports:*\n"
                           ++ joinSep "\n\n" ers],
                       expert_outputs := personas.zip ers } := by
            unfold expert_consensus_node
            rw [if_neg hm, if_neg hg]
            rfl
          rw [h1]
          unfold expert_consensus_node
          rw [if_pos (any_marker_append _ _ (consensus_msg_marker c (joinSep "\n\n" ers)))]
  · intro fmt rs r hr
    exact strContains_trans (moderatorPrompt_contains_debate fmt (joinSep "\n\n" rs))
      (strContains_joinSep "\n\n" hr)

/-- C7 witness: concrete instances of all four conjuncts. -/
theorem consensus_idempotent_and_reflects_witness :
    observe_node (fun _ => "") obsMarkedState = obsMarkedState ∧
    expert_consensus_node true [] (.ok "") consMarkedState = (consMarkedState, false) ∧
    expert_consensus_node false [] (.ok "go")
        (expert_consensus_node false ["rpt"] (.ok "plan") baseState).1
      = ((expert_consensus_node false ["rpt"] (.ok "plan") baseState).1, false) ∧
    strContains (moderatorPrompt "CTF\x7b" (joinSep "\n\n" ["r1", "### P\n[Error: x]"]))
      "### P\n[Error: x]" = true :=
  ⟨consensus_idempotent_and_reflects.1 (fun _ => "") obsMarkedState (by decide),
   consensus_idempotent_and_reflects.2.1 true [] (.ok "") consMarkedState (by decide),
   consensus_idempotent_and_reflects.2.2.1 false ["rpt"] "plan" false [] (.ok "go") baseState,
   consensus_idempotent_and_reflects.2.2.2 "CTF\x7b" ["r1", "### P\n[Error: x]"]
     "### P\n[Error: x]" (by simp)⟩

/-- C5 counterexample: with format `CTF\x7b` and output `"CTF\x7bab\ncd\x7d"`,
the prefix occurs and the nearest closing brace sits 5 characters after it
(position 9), comfortably inside the 100-character window the claim
describes — yet no flag is set, because the code's window (`.` in the
regex) cannot cross the newline. -/
theorem verify_newline_window_cex :
    strContains "CTF\x7bab\ncd\x7d" "CTF\x7b" = true ∧
    "CTF\x7bab\ncd\x7d".data.get? 9 = some '\x7d' ∧
    (verify_node (vState "CTF\x7bab\ncd\x7d")).flag_found = none := by
  decide

set_option maxRecDepth 4000 in
/-- C5 (amended): the direct extraction takes, from the leftmost prefix
occurrence that admits a match, the nearest closing brace preceded by
1–100 non-newline characters: the spec's own instance extracts exactly
`CTF\x7babc123\x7d`; a window of exactly 100 characters still matches while
101 does not; the window cannot cross a newline and needs at least one
character before the brace; an occurrence without a match falls through
to a later occurrence; and when the direct extraction fails, the base64
fallback scan still runs this cycle and may set the flag. -/
theorem verify_direct_window_behavior :
    (verify_node (vState "noise CTF\x7babc123\x7d trailing")).flag_found
        = some "CTF\x7babc123\x7d" ∧
    (verify_node (vState "noise CTF\x7babc123\x7d trailing")).messages
        = ["SUCCESS: Flag found -> CTF\x7babc123\x7d"] ∧
    (verify_node (vState ("CTF\x7b" ++ String.mk (List.replicate 100 'a') ++ "\x7d"))).flag_found
        = some ("CTF\x7b" ++ String.mk (List.replicate 100 'a') ++ "\x7d") ∧
    (verify_node (vState ("CTF\x7b" ++ String.mk (List.replicate 101 'a') ++ "\x7d"))).flag_found
        = none ∧
    (verify_node (vState "CTF\x7bxx\nyy\x7d")).flag_found = none ∧
    (verify_node (vState "CTF\x7b\x7d")).flag_found = none ∧
    (verify_node (vState "CTF\x7ba\nCTF\x7bx\x7d")).flag_found = some "CTF\x7bx\x7d" ∧
    (verify_node (vState "CTF\x7boops\n stuff Q1RGe2hpZGRlbl9pbl9ibG9ja3N9 end")).flag_found
        = some "CTF\x7bhidden_in_blocks\x7d" := by
  decide

/-- C6 counterexample: `"Q1RGe3h5en0="` is exactly `base64("CTF\x7bxyz\x7d")`;
embedded in 27 characters of surrounding noise set off by spaces, the
candidate token is only 12 characters long — below the scanner's ≥ 20
threshold — so the verifier sets no flag, contrary to the claim's
"decodes and returns exactly `CTF\x7bxyz\x7d`". -/
theorem verify_short_base64_cex :
    (b64Decode "Q1RGe3h5en0=".data).map (fun bs => String.mk (utf8DecodeIgnore bs))
        = some "CTF\x7bxyz\x7d" ∧
    strContains c6CexState.tool_output "Q1RGe3h5en0=" = true ∧
    strContains c6CexState.tool_output "CTF\x7b" = false ∧
    20 ≤ c6CexState.tool_output.length - "Q1RGe3h5en0=".length ∧
    (verify_node c6CexState).flag_found = none := by
  decide

/-- C6 (amended): when the format prefix is absent from the output, the
verifier scans for candidate tokens (base64 alphabet, length ≥ 20),
base64-decodes each, and on a decode containing the prefix applies the
same bounded-window extraction: for a flag whose encoding itself reaches
the 20-character threshold — here `CTF\x7bhidden_in_blocks\x7d`, the scenario
of `test_base64_flag.py` — it returns exactly the flag, with the matching
log entry; an undecodable candidate (21 chars, length 1 mod 4) raises
nothing and is skipped in favour of a later good one.  Flags whose
encoding is shorter than 20 characters are missed (see the
counterexample). -/
theorem verify_base64_extraction :
    strContains c6TestState.tool_output "CTF\x7b" = false ∧
    (verify_node c6TestState).flag_found = some "CTF\x7bhidden_in_blocks\x7d" ∧
    (verify_node c6TestState).messages
        = ["SUCCESS: Flag found (Base64 Decoded from 'Q1RGe2hpZGRlbl9pbl9ibG9ja3N9') -> CTF\x7bhidden_in_blocks\x7d"] ∧
    b64Decode "AAAAAAAAAAAAAAAAAAAAA".data = none ∧
    (verify_node c6SkipState).flag_found = some "CTF\x7bhidden_in_blocks\x7d" := by
  decide

end PwnGPT
